import Mathlib

/-!
Verification of the sharkord-whip plugin signaling/session layer.

Shallow embedding of the WHIP server code (src/server/whip-server.ts and
src/server/sdp.ts): the rate limiter, the constant-time key comparison, the
idempotent session teardown, the offer-handling control flow, the DTLS
parameter extraction, the answer fingerprint selection and the stats
conversion. External collaborators (mediasoup router/transport/producers,
the host createStream action, the SDP text parser) are modelled as oracle
parameters recording which calls succeed; the embedding tracks the
observable effects: response status, resources created and released,
sessions registered, rate-limit table updates.
-/

namespace Whip

/-! ## Constant-time key comparison (whip-server.ts, safeEqual)

Tokens are modelled as their byte sequences (List Nat). The code builds
Buffer values from both strings, pads each with zero bytes up to the longer
length, compares the padded buffers with timingSafeEqual (byte equality of
equal-length buffers) and additionally requires the original lengths to
match. -/

def safeEqual (a b : List Nat) : Bool :=
  let maxLen := max a.length b.length
  let pa := a ++ List.replicate (maxLen - a.length) 0
  let pb := b ++ List.replicate (maxLen - b.length) 0
  (pa == pb) && (a.length == b.length)

/-- Byte sequence of a string, one code point per entry. -/
def strBytes (s : String) : List Nat := s.data.map Char.toNat

/-! ## Session teardown (whip-server.ts, cleanupSession / handleWhipDelete)

The four resource kinds a session references. -/

inductive Res
  | audioProducer
  | videoProducer
  | transport
  | streamHandle
deriving DecidableEq, Repr

/-- A registered session as the registry sees it: which optional producers
it holds (the transport and stream handle are always present). -/
structure Session where
  hasAudio : Bool
  hasVideo : Bool
deriving DecidableEq, Repr

/-- State visible to cleanupSession: the session map, the ordered log of
release calls issued so far, and how many release failures were caught and
reported through ctx.error. -/
structure CleanupState where
  sessions : String → Option Session
  releases : List Res
  reported : Nat

/-- sessions.delete(sessionId). -/
def removeSession (sid : String) (st : CleanupState) : CleanupState :=
  { st with sessions := fun k => if k = sid then none else st.sessions k }

/-- The close/remove calls the try block issues for a session, in source
order: optional audio producer close, optional video producer close,
transport close, stream-injection removal. -/
def releaseOps (s : Session) : List Res :=
  (if s.hasAudio then [Res.audioProducer] else []) ++
    (if s.hasVideo then [Res.videoProducer] else []) ++
    [Res.transport, Res.streamHandle]

/-- Semantics of the single try block around the release calls: ops run in
order until the first one that throws (fail op = true); that op was invoked
but aborts the rest, and the Bool records whether an error reached the
catch. -/
def tryReleases (fail : Res → Bool) : List Res → List Res × Bool
  | [] => ([], false)
  | op :: rest =>
    if fail op then ([op], true)
    else
      let r := tryReleases fail rest
      (op :: r.1, r.2)

/-- Run the release try block of cleanupSession over a state: append the
attempted ops to the log and count a reported error when the catch fired. -/
def performReleases (fail : Res → Bool) (s : Session) (st : CleanupState) : CleanupState :=
  let r := tryReleases fail (releaseOps s)
  { st with
    releases := st.releases ++ r.1
    reported := st.reported + (if r.2 then 1 else 0) }

/-- cleanupSession: look up the session; a missing id returns at once with
the state untouched; otherwise the entry is deleted first and only then are
the release calls issued. -/
def cleanupSession (fail : Res → Bool) (sid : String) (st : CleanupState) : CleanupState :=
  match st.sessions sid with
  | none => st
  | some s => performReleases fail s (removeSession sid st)

/-- handleWhipDelete: 404 when the registry has no such session, otherwise
cleanup and 200. -/
def handleWhipDelete (fail : Res → Bool) (sid : String) (st : CleanupState) :
    CleanupState × Nat :=
  if (st.sessions sid).isSome then (cleanupSession fail sid st, 200)
  else (st, 404)

lemma removeSession_sessions_self (sid : String) (st : CleanupState) :
    (removeSession sid st).sessions sid = none := by
  simp [removeSession]

lemma performReleases_sessions (fail : Res → Bool) (s : Session) (st : CleanupState) :
    (performReleases fail s st).sessions = st.sessions := rfl

lemma cleanupSession_of_none {fail : Res → Bool} {sid : String} {st : CleanupState}
    (h : st.sessions sid = none) : cleanupSession fail sid st = st := by
  unfold cleanupSession
  rw [h]

lemma cleanupSession_of_some {fail : Res → Bool} {sid : String} {st : CleanupState}
    {s : Session} (h : st.sessions sid = some s) :
    cleanupSession fail sid st = performReleases fail s (removeSession sid st) := by
  unfold cleanupSession
  rw [h]

lemma cleanupSession_sessions_self (fail : Res → Bool) (sid : String) (st : CleanupState) :
    (cleanupSession fail sid st).sessions sid = none := by
  cases h : st.sessions sid with
  | none => rw [cleanupSession_of_none h]; exact h
  | some s =>
    rw [cleanupSession_of_some h, performReleases_sessions, removeSession_sessions_self]

lemma tryReleases_take (fail : Res → Bool) :
    ∀ l : List Res, (tryReleases fail l).1 = l.take (tryReleases fail l).1.length := by
  intro l
  induction l with
  | nil => rfl
  | cons op rest ih =>
    by_cases hf : fail op
    · simp [tryReleases, hf]
    · have hcons : (tryReleases fail (op :: rest)).1 = op :: (tryReleases fail rest).1 := by
        simp [tryReleases, hf]
      rw [hcons, List.length_cons, List.take_succ_cons]
      exact congrArg (List.cons op) ih

/-- Session used by concrete scenarios: both producers present. -/
def demoSession : Session := ⟨true, true⟩

/-- A registry holding exactly one live session, under id s1. -/
def demoState : CleanupState :=
  { sessions := fun k => if k = "s1" then some demoSession else none
    releases := []
    reported := 0 }

/-- Failure model in which closing the audio producer throws. -/
def audioCloseFails : Res → Bool := fun r => decide (r = Res.audioProducer)

/-- C1: cleanupSession deletes the registry entry before any release call
(it factors through removeSession, whose result no longer holds the id); a
missing id returns with the state untouched; hence a repeated or re-entrant
trigger for the same id is a no-op, the release sequence runs exactly once,
and a subsequent explicit DELETE answers 404 without crashing. -/
theorem cleanupSession_removeFirst_idempotent (fail : Res → Bool) (sid : String)
    (st : CleanupState) :
    (st.sessions sid = none → cleanupSession fail sid st = st)
    ∧ (∀ s, st.sessions sid = some s →
        cleanupSession fail sid st = performReleases fail s (removeSession sid st)
          ∧ (removeSession sid st).sessions sid = none)
    ∧ cleanupSession fail sid (cleanupSession fail sid st) = cleanupSession fail sid st
    ∧ handleWhipDelete fail sid (cleanupSession fail sid st) = (cleanupSession fail sid st, 404) := by
  refine ⟨fun h => cleanupSession_of_none h,
    fun s h => ⟨cleanupSession_of_some h, removeSession_sessions_self _ _⟩, ?_, ?_⟩
  · exact cleanupSession_of_none (cleanupSession_sessions_self fail sid st)
  · unfold handleWhipDelete
    rw [cleanupSession_sessions_self fail sid st]
    rfl

/-- C2 counterexample: with a session holding both producers, a failure in
the first release call (audio producer close) aborts the single try block:
the video producer, the transport and the stream handle are never attempted,
contradicting the claim that a failure does not prevent the remaining
release operations. The error is still caught and reported, not raised. -/
theorem cleanup_singleTryBlock_counterexample :
    (cleanupSession audioCloseFails "s1" demoState).releases = [Res.audioProducer]
    ∧ Res.videoProducer ∉ (cleanupSession audioCloseFails "s1" demoState).releases
    ∧ Res.transport ∉ (cleanupSession audioCloseFails "s1" demoState).releases
    ∧ Res.streamHandle ∉ (cleanupSession audioCloseFails "s1" demoState).releases
    ∧ (cleanupSession audioCloseFails "s1" demoState).reported = 1 := by
  refine ⟨rfl, ?_, ?_, ?_, rfl⟩ <;> decide

/-- C2 amended: the release operations are attempted in the order audio
producer close, video producer close, transport close, stream-injection
removal, but only up to and including the first failing one: the attempted
ops form a prefix of that order, all of them are attempted when none fails,
and a failure is caught and reported to the caller (reported count grows)
rather than raised — the remaining operations after the first failure are
skipped. -/
theorem cleanup_release_order (fail : Res → Bool) (sid : String) (st : CleanupState)
    (s : Session) (h : st.sessions sid = some s) :
    (cleanupSession fail sid st).releases = st.releases ++ (tryReleases fail (releaseOps s)).1
    ∧ (releaseOps s).Sublist
        [Res.audioProducer, Res.videoProducer, Res.transport, Res.streamHandle]
    ∧ (tryReleases fail (releaseOps s)).1
        = (releaseOps s).take (tryReleases fail (releaseOps s)).1.length
    ∧ ((tryReleases fail (releaseOps s)).2 = false →
        (tryReleases fail (releaseOps s)).1 = releaseOps s
          ∧ (cleanupSession fail sid st).reported = st.reported)
    ∧ ((tryReleases fail (releaseOps s)).2 = true →
        (cleanupSession fail sid st).reported = st.reported + 1) := by
  have hrel : cleanupSession fail sid st = performReleases fail s (removeSession sid st) :=
    cleanupSession_of_some h
  have hall : ∀ l : List Res, (tryReleases fail l).2 = false → (tryReleases fail l).1 = l := by
    intro l
    induction l with
    | nil => intro _; rfl
    | cons op rest ih =>
      intro hfl
      by_cases hop : fail op
      · simp [tryReleases, hop] at hfl
      · simp [tryReleases, hop] at hfl ⊢
        exact ih hfl
  refine ⟨?_, ?_, tryReleases_take fail _, ?_, ?_⟩
  · rw [hrel]; simp [performReleases, removeSession]
  · rcases s with ⟨ha, hv⟩
    cases ha <;> cases hv <;> simp [releaseOps]
  · intro hfalse
    exact ⟨hall _ hfalse, by rw [hrel]; simp [performReleases, removeSession, hfalse]⟩
  · intro htrue
    rw [hrel]; simp [performReleases, removeSession, htrue]

/-- Concrete instance of the amended C2 statement: a live session with both
producers and no failing release call logs the full release sequence. -/
theorem cleanup_release_order_witness :
    (cleanupSession (fun _ => false) "s1" demoState).releases
      = demoState.releases ++ (tryReleases (fun _ => false) (releaseOps demoSession)).1 :=
  (cleanup_release_order (fun _ => false) "s1" demoState demoSession rfl).1

/-- C7: safeEqual pads both byte sequences with zero bytes up to the longer
length before comparing, and accepts exactly the byte-identical pairs; in
particular inputs of different length never compare equal. -/
theorem safeEqual_iff_eq (a b : List Nat) :
    (safeEqual a b = true ↔ a = b)
    ∧ (a.length ≠ b.length → safeEqual a b = false) := by
  constructor
  · constructor
    · intro h
      simp only [safeEqual, Bool.and_eq_true, beq_iff_eq] at h
      obtain ⟨hpad, hlen⟩ := h
      rw [hlen] at hpad
      exact List.append_cancel_right hpad
    · rintro rfl
      simp [safeEqual]
  · intro hne
    have hlen : (a.length == b.length) = false := by
      simpa using hne
    simp [safeEqual, hlen]

/-! ## SDP offer model and DTLS parameter extraction (sdp.ts)

A DTLS certificate fingerprint: the hash algorithm name and the hash value
(the type/hash pair of the parsed document, the algorithm/value pair of the
transport parameters). -/

structure Fingerprint where
  algorithm : String
  value : String
deriving DecidableEq, Repr

/-- The remote handshake role passed to the media engine: client means the
remote initiates the DTLS handshake, server means the remote waits. -/
inductive DtlsRole
  | client
  | server
deriving DecidableEq, Repr

structure DtlsParameters where
  role : DtlsRole
  fingerprints : List Fingerprint
deriving DecidableEq, Repr

/-- One media section of the parsed offer: its kind plus the per-section
setup and fingerprint attributes (only what extraction reads). -/
structure MediaSec where
  mtype : String
  setup : Option String
  fingerprint : Option Fingerprint
deriving DecidableEq, Repr

/-- The parsed offer document: ordered media sections plus the
session-level setup and fingerprint attributes. -/
structure ParsedSdp where
  media : List MediaSec
  setup : Option String
  fingerprint : Option Fingerprint
deriving DecidableEq, Repr

/-- media[0]?.fingerprint ?? parsed.fingerprint. -/
def offerFingerprint (p : ParsedSdp) : Option Fingerprint :=
  (p.media.head?.bind MediaSec.fingerprint).orElse fun _ => p.fingerprint

/-- media[0]?.setup ?? parsed.setup ?? actpass. -/
def offerSetupAttr (p : ParsedSdp) : String :=
  ((p.media.head?.bind MediaSec.setup).orElse fun _ => p.setup).getD "actpass"

/-- extractDtlsParameters: fingerprint from the first media section, else
the session level, else a missing-fingerprint error; the remote role is
server exactly when the sender declared the passive posture, else client. -/
def extractDtlsParameters (p : ParsedSdp) : Except String DtlsParameters :=
  match offerFingerprint p with
  | none => Except.error "No DTLS fingerprint in SDP offer"
  | some fp =>
    Except.ok
      { role := if offerSetupAttr p = "passive" then DtlsRole.server else DtlsRole.client
        fingerprints := [fp] }

/-- C4: the role mapping is fixed — sender active or actpass yields the
initiator role (client), sender passive yields the responder role (server);
the setup attribute is read from the first media section, else the session
level; and extraction fails with the missing-fingerprint error exactly when
neither the first media section nor the session level carries a
fingerprint. -/
theorem extractDtls_role_mapping (p : ParsedSdp) :
    (∀ d, extractDtlsParameters p = Except.ok d →
        (offerSetupAttr p = "active" → d.role = DtlsRole.client)
        ∧ (offerSetupAttr p = "actpass" → d.role = DtlsRole.client)
        ∧ (offerSetupAttr p = "passive" → d.role = DtlsRole.server))
    ∧ (∀ m ms s, p.media = m :: ms → m.setup = some s → offerSetupAttr p = s)
    ∧ (p.media.head?.bind MediaSec.setup = none →
        ∀ s, p.setup = some s → offerSetupAttr p = s)
    ∧ (extractDtlsParameters p = Except.error "No DTLS fingerprint in SDP offer"
        ↔ p.media.head?.bind MediaSec.fingerprint = none ∧ p.fingerprint = none) := by
  refine ⟨?_, ?_, ?_, ?_⟩
  · intro d hd
    unfold extractDtlsParameters at hd
    cases hfp : offerFingerprint p with
    | none => rw [hfp] at hd; exact absurd hd (by simp)
    | some fp =>
      rw [hfp] at hd
      simp only [Except.ok.injEq] at hd
      subst hd
      refine ⟨fun hs => ?_, fun hs => ?_, fun hs => ?_⟩ <;> simp [hs]
  · intro m ms s hm hset
    unfold offerSetupAttr
    rw [hm]
    simp [hset]
  · intro hnone s hs
    unfold offerSetupAttr
    rw [hnone, hs]
    rfl
  · cases h1 : p.media.head?.bind MediaSec.fingerprint with
    | some fp => simp [extractDtlsParameters, offerFingerprint, h1, Option.orElse]
    | none =>
      cases h2 : p.fingerprint with
      | some fp => simp [extractDtlsParameters, offerFingerprint, h1, h2, Option.orElse]
      | none => simp [extractDtlsParameters, offerFingerprint, h1, h2, Option.orElse]

/-! ## Answer fingerprint selection (sdp.ts, buildSdpAnswer) -/

def FINGERPRINT_PREFERENCE : List String := ["sha-256", "sha-512", "sha-384", "sha-1"]

/-- The fingerprint buildSdpAnswer picks from the transport parameters: the
first preference-list algorithm present, else the last available entry. -/
def answerFingerprint (fps : List Fingerprint) : Option Fingerprint :=
  (FINGERPRINT_PREFERENCE.findSome? fun alg => fps.find? fun f => f.algorithm == alg).orElse
    fun _ => fps.getLast?

/-- The fingerprint step of buildSdpAnswer: selection, or the
no-fingerprint error the function raises. -/
def buildSdpAnswerFingerprint (dtls : DtlsParameters) : Except String Fingerprint :=
  match answerFingerprint dtls.fingerprints with
  | none => Except.error "No DTLS fingerprint in transport parameters"
  | some fp => Except.ok fp

/-- C5: selection prefers sha-256, then sha-512, then sha-384, then sha-1,
in that strict order; the last available entry is used only when none of
the preferred algorithms is present; and the no-fingerprint error is raised
exactly when the list is empty. -/
theorem answerFingerprint_preference (dtls : DtlsParameters) :
    (∀ f, dtls.fingerprints.find? (fun g => g.algorithm == "sha-256") = some f →
        answerFingerprint dtls.fingerprints = some f)
    ∧ (dtls.fingerprints.find? (fun g => g.algorithm == "sha-256") = none →
        ∀ f, dtls.fingerprints.find? (fun g => g.algorithm == "sha-512") = some f →
          answerFingerprint dtls.fingerprints = some f)
    ∧ (dtls.fingerprints.find? (fun g => g.algorithm == "sha-256") = none →
        dtls.fingerprints.find? (fun g => g.algorithm == "sha-512") = none →
          ∀ f, dtls.fingerprints.find? (fun g => g.algorithm == "sha-384") = some f →
            answerFingerprint dtls.fingerprints = some f)
    ∧ (dtls.fingerprints.find? (fun g => g.algorithm == "sha-256") = none →
        dtls.fingerprints.find? (fun g => g.algorithm == "sha-512") = none →
          dtls.fingerprints.find? (fun g => g.algorithm == "sha-384") = none →
            ∀ f, dtls.fingerprints.find? (fun g => g.algorithm == "sha-1") = some f →
              answerFingerprint dtls.fingerprints = some f)
    ∧ ((∀ alg ∈ FINGERPRINT_PREFERENCE,
          dtls.fingerprints.find? (fun g => g.algorithm == alg) = none) →
        answerFingerprint dtls.fingerprints = dtls.fingerprints.getLast?)
    ∧ (answerFingerprint dtls.fingerprints = none ↔ dtls.fingerprints = [])
    ∧ (buildSdpAnswerFingerprint dtls
        = Except.error "No DTLS fingerprint in transport parameters"
        ↔ dtls.fingerprints = []) := by
  have hnone_iff : answerFingerprint dtls.fingerprints = none ↔ dtls.fingerprints = [] := by
    constructor
    · intro h
      unfold answerFingerprint at h
      cases hfs : FINGERPRINT_PREFERENCE.findSome?
          fun alg => dtls.fingerprints.find? fun f => f.algorithm == alg with
      | some f => rw [hfs] at h; simp [Option.orElse] at h
      | none =>
        rw [hfs] at h
        simp only [Option.orElse] at h
        exact List.getLast?_eq_none_iff.mp h
    · rintro h
      rw [h]
      rfl
  refine ⟨?_, ?_, ?_, ?_, ?_, hnone_iff, ?_⟩
  · intro f h256
    simp [answerFingerprint, FINGERPRINT_PREFERENCE, List.findSome?_cons, h256, Option.orElse]
  · intro h256 f h512
    simp [answerFingerprint, FINGERPRINT_PREFERENCE, List.findSome?_cons, h256, h512,
      Option.orElse]
  · intro h256 h512 f h384
    simp [answerFingerprint, FINGERPRINT_PREFERENCE, List.findSome?_cons, h256, h512, h384,
      Option.orElse]
  · intro h256 h512 h384 f h1
    simp [answerFingerprint, FINGERPRINT_PREFERENCE, List.findSome?_cons, h256, h512, h384, h1,
      Option.orElse]
  · intro hall
    have h256 := hall "sha-256" (by simp [FINGERPRINT_PREFERENCE])
    have h512 := hall "sha-512" (by simp [FINGERPRINT_PREFERENCE])
    have h384 := hall "sha-384" (by simp [FINGERPRINT_PREFERENCE])
    have h1 := hall "sha-1" (by simp [FINGERPRINT_PREFERENCE])
    simp [answerFingerprint, FINGERPRINT_PREFERENCE, List.findSome?_cons, h256, h512, h384, h1,
      Option.orElse]
  · unfold buildSdpAnswerFingerprint
    cases hans : answerFingerprint dtls.fingerprints with
    | none => simp [hans, hnone_iff.mp hans]
    | some f =>
      have : dtls.fingerprints ≠ [] := by
        intro hnil
        rw [hnone_iff.mpr hnil] at hans
        exact Option.noConfusion hans
      simp [hans, this]

/-! ## Admission control (whip-server.ts, rate limiter) -/

def MAX_ATTEMPTS : Nat := 5

def WINDOW_MS : Nat := 60000

/-- One failedAttempts table entry: failure count and window-expiry time. -/
structure RLEntry where
  count : Nat
  resetAt : Nat
deriving DecidableEq, Repr

/-- checkRateLimit: allowed when the address has no entry or the entry has
expired, else when its count is still below the limit. -/
def checkRateLimit (now : Nat) (failedAttempts : String → Option RLEntry) (ip : String) :
    Bool :=
  match failedAttempts ip with
  | none => true
  | some entry => if now > entry.resetAt then true else decide (entry.count < MAX_ATTEMPTS)

/-- recordFailedAttempt: start a fresh window at count 1 when no entry is
active or the old one expired, else increment in place. -/
def recordFailedAttempt (now : Nat) (fa : String → Option RLEntry) (ip : String) :
    String → Option RLEntry :=
  match fa ip with
  | none => fun k => if k = ip then some ⟨1, now + WINDOW_MS⟩ else fa k
  | some entry =>
    if now > entry.resetAt then fun k => if k = ip then some ⟨1, now + WINDOW_MS⟩ else fa k
    else fun k => if k = ip then some ⟨entry.count + 1, entry.resetAt⟩ else fa k

/-- clearFailedAttempts: drop the entry of the address. -/
def clearFailedAttempts (fa : String → Option RLEntry) (ip : String) :
    String → Option RLEntry :=
  fun k => if k = ip then none else fa k

/-- Prefix test on strings, by their character sequences. -/
def strStartsWith (s pre : String) : Bool := pre.data.isPrefixOf s.data

/-- Drop the first n characters of a string (the Bearer prefix is ASCII,
so character count and code-unit count agree). -/
def strDrop (s : String) (n : Nat) : String := String.mk (s.data.drop n)

/-- The key the request supplied: the Authorization header with a Bearer
prefix stripped, else the raw header, else the empty string. -/
def providedKeyOf (authHeader : Option String) : String :=
  let auth := authHeader.getD ""
  if strStartsWith auth "Bearer " then strDrop auth 7 else auth

/-- The address admission control keys on: the x-forwarded-for header, with
the fixed fallback key for requests that carry none. -/
def clientIpOf (xForwardedFor : Option String) : String := xForwardedFor.getD "unknown"

/-! ## Offer handling (whip-server.ts, handleWhipOffer)

The external media engine and pure helpers are modelled as an oracle
telling which call of the setup sequence succeeds and which media kinds the
offer carries; the embedding records the control flow of the handler. -/

structure Engine where
  routerPresent : Bool
  transportOk : Bool
  parseOk : Bool
  dtlsOk : Bool
  connectOk : Bool
  hasAudio : Bool
  audioOk : Bool
  hasVideo : Bool
  videoOk : Bool
  streamOk : Bool
  answerOk : Bool
deriving DecidableEq, Repr

structure OfferRequest where
  authHeader : Option String
  xForwardedFor : Option String
  channelId : Option Int
  body : String
deriving DecidableEq, Repr

/-- Observable outcome of one POST: HTTP status, the rate-limit table after
the request, whether the token comparison ran, whether parseSdp was invoked
on the body, the external resources created and released during the
attempt, and the session registered (if any). -/
structure OfferOutcome where
  status : Nat
  failedAttempts : String → Option RLEntry
  tokenCompared : Bool
  parseCalled : Bool
  created : List Res
  released : List Res
  registered : Option Session

/-- The resources a registered session references. -/
def sessionRes (s : Session) : List Res :=
  [Res.transport] ++ (if s.hasAudio then [Res.audioProducer] else []) ++
    (if s.hasVideo then [Res.videoProducer] else []) ++ [Res.streamHandle]

/-- The part of the try-block outcome that depends only on the engine:
status, whether parseSdp ran, resources created and released, session
registered. -/
structure TryResult where
  status : Nat
  parseCalled : Bool
  created : List Res
  released : List Res
  registered : Option Session
deriving DecidableEq, Repr

/-- The try block of handleWhipOffer, from the router lookup to the 201
response. A false oracle field means that call throws; the catch returns
500 and releases nothing. The only failure path that closes anything is the
no-usable-media 400, which closes the transport. -/
def offerTryCore (eng : Engine) : TryResult :=
  if !eng.routerPresent then
    { status := 503, parseCalled := false, created := [], released := [], registered := none }
  else if !eng.transportOk then
    { status := 500, parseCalled := false, created := [], released := [], registered := none }
  else if !eng.parseOk then
    { status := 500, parseCalled := true, created := [Res.transport], released := [],
      registered := none }
  else if !eng.dtlsOk then
    { status := 500, parseCalled := true, created := [Res.transport], released := [],
      registered := none }
  else if !eng.connectOk then
    { status := 500, parseCalled := true, created := [Res.transport], released := [],
      registered := none }
  else if eng.hasAudio && !eng.audioOk then
    { status := 500, parseCalled := true, created := [Res.transport], released := [],
      registered := none }
  else if eng.hasVideo && !eng.videoOk then
    { status := 500, parseCalled := true,
      created := [Res.transport] ++ (if eng.hasAudio then [Res.audioProducer] else []),
      released := [], registered := none }
  else if !eng.hasAudio && !eng.hasVideo then
    { status := 400, parseCalled := true, created := [Res.transport],
      released := [Res.transport], registered := none }
  else if !eng.streamOk then
    { status := 500, parseCalled := true,
      created := [Res.transport] ++ (if eng.hasAudio then [Res.audioProducer] else []) ++
        (if eng.hasVideo then [Res.videoProducer] else []),
      released := [], registered := none }
  else if !eng.answerOk then
    { status := 500, parseCalled := true, created := sessionRes ⟨eng.hasAudio, eng.hasVideo⟩,
      released := [], registered := some ⟨eng.hasAudio, eng.hasVideo⟩ }
  else
    { status := 201, parseCalled := true, created := sessionRes ⟨eng.hasAudio, eng.hasVideo⟩,
      released := [], registered := some ⟨eng.hasAudio, eng.hasVideo⟩ }

/-- The try block as the handler sees it: the engine-determined outcome,
with the rate-limit table and comparison flag passed through unchanged. -/
def offerTryBlock (eng : Engine) (fa : String → Option RLEntry) (compared : Bool) :
    OfferOutcome :=
  { status := (offerTryCore eng).status, failedAttempts := fa, tokenCompared := compared,
    parseCalled := (offerTryCore eng).parseCalled, created := (offerTryCore eng).created,
    released := (offerTryCore eng).released, registered := (offerTryCore eng).registered }

/-- The handler after admission control: channel-id validation, then the
literal v=0 prefix check on the body, then the try block. -/
def offerAfterAuth (channelId : Option Int) (body : String) (eng : Engine)
    (fa : String → Option RLEntry) (compared : Bool) : OfferOutcome :=
  match channelId with
  | none =>
    { status := 400, failedAttempts := fa, tokenCompared := compared, parseCalled := false,
      created := [], released := [], registered := none }
  | some _ =>
    if !strStartsWith body "v=0" then
      { status := 400, failedAttempts := fa, tokenCompared := compared, parseCalled := false,
        created := [], released := [], registered := none }
    else offerTryBlock eng fa compared

/-- handleWhipOffer: when a stream key is configured, rate-limit gate
first, then the constant-time token comparison (recording a failure or
clearing the entry), then the rest of the handler; with no key configured
the checks are skipped entirely. -/
def handleWhipOffer (expectedKey : String) (req : OfferRequest) (now : Nat) (eng : Engine)
    (fa : String → Option RLEntry) : OfferOutcome :=
  if expectedKey = "" then offerAfterAuth req.channelId req.body eng fa false
  else if !checkRateLimit now fa (clientIpOf req.xForwardedFor) then
    { status := 429, failedAttempts := fa, tokenCompared := false, parseCalled := false,
      created := [], released := [], registered := none }
  else if !safeEqual (strBytes (providedKeyOf req.authHeader)) (strBytes expectedKey) then
    { status := 401,
      failedAttempts := recordFailedAttempt now fa (clientIpOf req.xForwardedFor),
      tokenCompared := true, parseCalled := false, created := [], released := [],
      registered := none }
  else
    offerAfterAuth req.channelId req.body eng
      (clearFailedAttempts fa (clientIpOf req.xForwardedFor)) true

set_option maxHeartbeats 1000000 in
lemma offerTryCore_not_auth_status (eng : Engine) :
    (offerTryCore eng).status ≠ 401 ∧ (offerTryCore eng).status ≠ 429 := by
  unfold offerTryCore
  split_ifs <;> simp

lemma offerTryBlock_fields (eng : Engine) (fa : String → Option RLEntry) (compared : Bool) :
    (offerTryBlock eng fa compared).failedAttempts = fa
    ∧ (offerTryBlock eng fa compared).tokenCompared = compared
    ∧ (offerTryBlock eng fa compared).status ≠ 401
    ∧ (offerTryBlock eng fa compared).status ≠ 429 :=
  ⟨rfl, rfl, (offerTryCore_not_auth_status eng).1, (offerTryCore_not_auth_status eng).2⟩

lemma offerAfterAuth_fields (cid : Option Int) (body : String) (eng : Engine)
    (fa : String → Option RLEntry) (compared : Bool) :
    (offerAfterAuth cid body eng fa compared).failedAttempts = fa
    ∧ (offerAfterAuth cid body eng fa compared).tokenCompared = compared
    ∧ (offerAfterAuth cid body eng fa compared).status ≠ 401
    ∧ (offerAfterAuth cid body eng fa compared).status ≠ 429 := by
  cases cid with
  | none => exact ⟨rfl, rfl, by simp [offerAfterAuth], by simp [offerAfterAuth]⟩
  | some c =>
    by_cases hb : strStartsWith body "v=0"
    · have hsame : offerAfterAuth (some c) body eng fa compared
          = offerTryBlock eng fa compared := by
        simp [offerAfterAuth, hb]
      rw [hsame]
      exact offerTryBlock_fields eng fa compared
    · simp only [Bool.not_eq_true] at hb
      refine ⟨?_, ?_, ?_, ?_⟩ <;> simp [offerAfterAuth, hb]

/-- C6: with a key configured — a request past the rate gate whose token comparison
fails is answered 401 and its address entry is recorded (fresh window at
count 1 when none is active or the active one expired, increment in place
otherwise); a request from an address whose entry has reached the limit
inside an unexpired window is answered 429 with the table unchanged and
without running the token comparison; an expired entry no longer limits;
a successful comparison deletes the entry at once. With no key configured
the table is untouched, no comparison runs, and neither 401 nor 429 is
ever answered. -/
theorem whipOffer_admission_control (key : String) (req : OfferRequest) (now : Nat)
    (eng : Engine) (fa : String → Option RLEntry) :
    (key ≠ "" → checkRateLimit now fa (clientIpOf req.xForwardedFor) = true →
        safeEqual (strBytes (providedKeyOf req.authHeader)) (strBytes key) = false →
        (handleWhipOffer key req now eng fa).status = 401
          ∧ (handleWhipOffer key req now eng fa).failedAttempts
              = recordFailedAttempt now fa (clientIpOf req.xForwardedFor)
          ∧ (handleWhipOffer key req now eng fa).tokenCompared = true)
    ∧ (∀ ip, fa ip = none →
        recordFailedAttempt now fa ip ip = some ⟨1, now + WINDOW_MS⟩)
    ∧ (∀ ip e, fa ip = some e → now > e.resetAt →
        recordFailedAttempt now fa ip ip = some ⟨1, now + WINDOW_MS⟩)
    ∧ (∀ ip e, fa ip = some e → ¬ now > e.resetAt →
        recordFailedAttempt now fa ip ip = some ⟨e.count + 1, e.resetAt⟩)
    ∧ (key ≠ "" → ∀ e, fa (clientIpOf req.xForwardedFor) = some e → ¬ now > e.resetAt →
        MAX_ATTEMPTS ≤ e.count →
        (handleWhipOffer key req now eng fa).status = 429
          ∧ (handleWhipOffer key req now eng fa).tokenCompared = false
          ∧ (handleWhipOffer key req now eng fa).failedAttempts = fa)
    ∧ (∀ ip e, fa ip = some e → now > e.resetAt → checkRateLimit now fa ip = true)
    ∧ (key ≠ "" → checkRateLimit now fa (clientIpOf req.xForwardedFor) = true →
        safeEqual (strBytes (providedKeyOf req.authHeader)) (strBytes key) = true →
        (handleWhipOffer key req now eng fa).failedAttempts
            = clearFailedAttempts fa (clientIpOf req.xForwardedFor)
          ∧ (handleWhipOffer key req now eng fa).failedAttempts
              (clientIpOf req.xForwardedFor) = none)
    ∧ (key = "" →
        (handleWhipOffer key req now eng fa).tokenCompared = false
          ∧ (handleWhipOffer key req now eng fa).failedAttempts = fa
          ∧ (handleWhipOffer key req now eng fa).status ≠ 401
          ∧ (handleWhipOffer key req now eng fa).status ≠ 429) := by
  refine ⟨?_, ?_, ?_, ?_, ?_, ?_, ?_, ?_⟩
  · intro hkey hrl hse
    simp [handleWhipOffer, hkey, hrl, hse]
  · intro ip hnone
    unfold recordFailedAttempt
    rw [hnone]
    simp
  · intro ip e he hexp
    unfold recordFailedAttempt
    rw [he]
    simp [hexp]
  · intro ip e he hexp
    unfold recordFailedAttempt
    rw [he]
    simp [hexp]
  · intro hkey e he hexp hcnt
    have hrl : checkRateLimit now fa (clientIpOf req.xForwardedFor) = false := by
      unfold checkRateLimit
      rw [he]
      simp [hexp, Nat.not_lt.mpr hcnt]
    simp [handleWhipOffer, hkey, hrl]
  · intro ip e he hexp
    unfold checkRateLimit
    rw [he]
    simp [hexp]
  · intro hkey hrl hse
    have hout : (handleWhipOffer key req now eng fa).failedAttempts
        = clearFailedAttempts fa (clientIpOf req.xForwardedFor) := by
      unfold handleWhipOffer
      simp only [hkey, hrl, hse, Bool.not_true, Bool.false_eq_true, if_false, if_neg hkey]
      exact (offerAfterAuth_fields _ _ _ _ _).1
    exact ⟨hout, by rw [hout]; simp [clearFailedAttempts]⟩
  · intro hkey
    subst hkey
    have h := offerAfterAuth_fields req.channelId req.body eng fa false
    simpa [handleWhipOffer] using ⟨h.2.1, h.1, h.2.2.1, h.2.2.2⟩

/-- C10: a request without an x-forwarded-for header behaves exactly as one
whose address is the fixed key unknown, so all header-less clients share
one rate-limit entry: each of their failed comparisons records against the
shared unknown entry, once that entry reaches the limit inside its window
every header-less request is answered 429 without a token comparison, and
one successful header-less authentication deletes the shared entry. -/
theorem whipOffer_unknown_address_shared (key : String) (ah : Option String)
    (cid : Option Int) (body : String) (now : Nat) (eng : Engine)
    (fa : String → Option RLEntry) :
    handleWhipOffer key ⟨ah, none, cid, body⟩ now eng fa
      = handleWhipOffer key ⟨ah, some "unknown", cid, body⟩ now eng fa
    ∧ (key ≠ "" → checkRateLimit now fa "unknown" = true →
        safeEqual (strBytes (providedKeyOf ah)) (strBytes key) = false →
        (handleWhipOffer key ⟨ah, none, cid, body⟩ now eng fa).failedAttempts
          = recordFailedAttempt now fa "unknown")
    ∧ (key ≠ "" → ∀ e, fa "unknown" = some e → ¬ now > e.resetAt → MAX_ATTEMPTS ≤ e.count →
        (handleWhipOffer key ⟨ah, none, cid, body⟩ now eng fa).status = 429
          ∧ (handleWhipOffer key ⟨ah, none, cid, body⟩ now eng fa).tokenCompared = false)
    ∧ (key ≠ "" → checkRateLimit now fa "unknown" = true →
        safeEqual (strBytes (providedKeyOf ah)) (strBytes key) = true →
        (handleWhipOffer key ⟨ah, none, cid, body⟩ now eng fa).failedAttempts "unknown"
          = none) := by
  have hip : clientIpOf (none : Option String) = "unknown" := rfl
  refine ⟨rfl, ?_, ?_, ?_⟩
  · intro hkey hrl hse
    simp [handleWhipOffer, hkey, clientIpOf, hrl, hse]
  · intro hkey e he hexp hcnt
    have hrl : checkRateLimit now fa "unknown" = false := by
      unfold checkRateLimit
      rw [he]
      simp [hexp, Nat.not_lt.mpr hcnt]
    constructor <;> simp [handleWhipOffer, hkey, clientIpOf, hrl]
  · intro hkey hrl hse
    have hout : (handleWhipOffer key ⟨ah, none, cid, body⟩ now eng fa).failedAttempts
        = clearFailedAttempts fa "unknown" := by
      unfold handleWhipOffer
      simp only [clientIpOf, Option.getD_none, hrl, hse, Bool.not_true, Bool.false_eq_true,
        if_false, if_neg hkey]
      exact (offerAfterAuth_fields _ _ _ _ _).1
    rw [hout]
    simp [clearFailedAttempts]

/-! ## The v=0 body gate and the failure paths of the setup sequence -/

/-- An engine in which every external call succeeds and the offer carries
both media kinds. -/
def engFull : Engine :=
  { routerPresent := true, transportOk := true, parseOk := true, dtlsOk := true,
    connectOk := true, hasAudio := true, audioOk := true, hasVideo := true,
    videoOk := true, streamOk := true, answerOk := true }

/-- The empty rate-limit table. -/
def emptyRL : String → Option RLEntry := fun _ => none

/-- A POST whose body is not an SDP offer, sent with a wrong bearer token. -/
def badBodyReq : OfferRequest :=
  { authHeader := some "Bearer wrong", xForwardedFor := none, channelId := some 7,
    body := "hello" }

lemma offerAfterAuth_badBody (cid : Option Int) (body : String) (eng : Engine)
    (fa : String → Option RLEntry) (compared : Bool)
    (h : strStartsWith body "v=0" = false) :
    offerAfterAuth cid body eng fa compared
      = { status := 400, failedAttempts := fa, tokenCompared := compared,
          parseCalled := false, created := [], released := [], registered := none } := by
  cases cid with
  | none => rfl
  | some c => simp [offerAfterAuth, h]

/-- C9 counterexample: with a stream key configured, a request whose body
does not begin with v=0 but whose token is wrong is rejected 401, not 400 —
the parser is still never invoked, but the rejection status contradicts the
claim as stated. -/
theorem bodyCheck_counterexample :
    strStartsWith badBodyReq.body "v=0" = false
    ∧ (handleWhipOffer "secret" badBodyReq 0 engFull emptyRL).status = 401
    ∧ ¬ (handleWhipOffer "secret" badBodyReq 0 engFull emptyRL).status = 400
    ∧ (handleWhipOffer "secret" badBodyReq 0 engFull emptyRL).parseCalled = false := by
  exact ⟨rfl, rfl, by decide, rfl⟩

/-- C9 amended: the SDP parser is never invoked on a body that does not
begin with v=0; such a request is answered 400, except that admission
control may already have rejected it with 401 or 429 before the body is
looked at — whenever the response is neither 401 nor 429, it is 400. -/
theorem bodyCheck_gates_parse (key : String) (req : OfferRequest) (now : Nat) (eng : Engine)
    (fa : String → Option RLEntry) (h : strStartsWith req.body "v=0" = false) :
    (handleWhipOffer key req now eng fa).parseCalled = false
    ∧ ((handleWhipOffer key req now eng fa).status = 400
        ∨ (handleWhipOffer key req now eng fa).status = 401
        ∨ (handleWhipOffer key req now eng fa).status = 429)
    ∧ ((handleWhipOffer key req now eng fa).status ≠ 401 →
        (handleWhipOffer key req now eng fa).status ≠ 429 →
        (handleWhipOffer key req now eng fa).status = 400) := by
  unfold handleWhipOffer
  by_cases hkey : key = ""
  · rw [if_pos hkey, offerAfterAuth_badBody _ _ _ _ _ h]
    exact ⟨rfl, Or.inl rfl, fun _ _ => rfl⟩
  · rw [if_neg hkey]
    by_cases hrl : checkRateLimit now fa (clientIpOf req.xForwardedFor) = true
    · simp only [hrl, Bool.not_true, Bool.false_eq_true, if_false]
      by_cases hse : safeEqual (strBytes (providedKeyOf req.authHeader)) (strBytes key) = true
      · simp only [hse, Bool.not_true, Bool.false_eq_true, if_false,
          offerAfterAuth_badBody _ _ _ _ _ h]
        simp
      · simp only [Bool.not_eq_true] at hse
        simp only [hse, Bool.not_false, if_true]
        simp
    · simp only [Bool.not_eq_true] at hrl
      simp only [hrl, Bool.not_false, if_true]
      simp

/-- Concrete instance of the amended C9 statement: no key configured, valid
channel, body hello — answered 400 and the parser never runs. -/
theorem bodyCheck_gates_parse_witness :
    (handleWhipOffer "" ⟨none, none, some 7, "hello"⟩ 0 engFull emptyRL).parseCalled = false
    ∧ ((handleWhipOffer "" ⟨none, none, some 7, "hello"⟩ 0 engFull emptyRL).status = 400
        ∨ (handleWhipOffer "" ⟨none, none, some 7, "hello"⟩ 0 engFull emptyRL).status = 401
        ∨ (handleWhipOffer "" ⟨none, none, some 7, "hello"⟩ 0 engFull emptyRL).status = 429)
    ∧ ((handleWhipOffer "" ⟨none, none, some 7, "hello"⟩ 0 engFull emptyRL).status ≠ 401 →
        (handleWhipOffer "" ⟨none, none, some 7, "hello"⟩ 0 engFull emptyRL).status ≠ 429 →
        (handleWhipOffer "" ⟨none, none, some 7, "hello"⟩ 0 engFull emptyRL).status = 400) :=
  bodyCheck_gates_parse "" ⟨none, none, some 7, "hello"⟩ 0 engFull emptyRL rfl

/-- Engine in which the DTLS connect call toward the sender fails after the
transport has been created. -/
def connectFailsEngine : Engine := { engFull with connectOk := false }

/-- A well-formed offer request on channel 7 without a configured key. -/
def goodOfferReq : OfferRequest :=
  { authHeader := none, xForwardedFor := none, channelId := some 7,
    body := "v=0\r\no=- 0 0 IN IP4 0.0.0.0" }

/-- C3 counterexample: when the DTLS connect fails after the transport was
created, the handler answers 500 with the transport still unreleased — the
claim that all not-yet-registered resources are released before the 500 is
returned fails on this input. -/
theorem setupFailure_leak_counterexample :
    (handleWhipOffer "" goodOfferReq 0 connectFailsEngine emptyRL).status = 500
    ∧ (handleWhipOffer "" goodOfferReq 0 connectFailsEngine emptyRL).created
        = [Res.transport]
    ∧ (handleWhipOffer "" goodOfferReq 0 connectFailsEngine emptyRL).released = [] :=
  ⟨rfl, rfl, rfl⟩

set_option maxHeartbeats 1000000 in
lemma offerTryCore_failure_invariants (eng : Engine) :
    ((offerTryCore eng).status = 500 → (offerTryCore eng).released = [])
    ∧ ((offerTryCore eng).released ≠ [] →
        (offerTryCore eng).status = 400
          ∧ (offerTryCore eng).released = [Res.transport]
          ∧ (offerTryCore eng).created = [Res.transport])
    ∧ (∀ s, (offerTryCore eng).registered = some s →
        (offerTryCore eng).created = sessionRes s
          ∧ ((offerTryCore eng).status = 201 ∨ (offerTryCore eng).status = 500)) := by
  by_cases h1 : eng.routerPresent
  case neg => simp [offerTryCore, h1]
  case pos =>
  by_cases h2 : eng.transportOk
  case neg => simp [offerTryCore, h1, h2]
  case pos =>
  by_cases h3 : eng.parseOk
  case neg => simp [offerTryCore, h1, h2, h3]
  case pos =>
  by_cases h4 : eng.dtlsOk
  case neg => simp [offerTryCore, h1, h2, h3, h4]
  case pos =>
  by_cases h5 : eng.connectOk
  case neg => simp [offerTryCore, h1, h2, h3, h4, h5]
  case pos =>
  by_cases h6 : (eng.hasAudio && !eng.audioOk) = true
  case pos => simp [offerTryCore, h1, h2, h3, h4, h5, h6]
  case neg =>
  by_cases h7 : (eng.hasVideo && !eng.videoOk) = true
  case pos => simp [offerTryCore, h1, h2, h3, h4, h5, h6, h7]
  case neg =>
  by_cases h8 : (!eng.hasAudio && !eng.hasVideo) = true
  case pos => simp [offerTryCore, h1, h2, h3, h4, h5, h6, h7, h8]
  case neg =>
  by_cases h9 : eng.streamOk
  case neg => simp [offerTryCore, h1, h2, h3, h4, h5, h6, h7, h8, h9]
  case pos =>
  by_cases h10 : eng.answerOk
  case neg =>
    simp [offerTryCore, h1, h2, h3, h4, h5, h6, h7, h8, h9, h10, sessionRes]
  case pos =>
    simp [offerTryCore, h1, h2, h3, h4, h5, h6, h7, h8, h9, h10, sessionRes]

/-- C3 amended: an unexpected setup failure is answered 500 with nothing
released — the transport and any producers created for the attempt are
leaked, not released, before the response returns; the only failure path
that releases anything is the no-usable-media 400, which closes exactly the
transport it created. The other half of the claim holds: a session is
registered only after every resource of the attempt was created, so no
registered session references a resource that was not fully created. -/
theorem setupFailure_no_release (key : String) (req : OfferRequest) (now : Nat)
    (eng : Engine) (fa : String → Option RLEntry) :
    ((handleWhipOffer key req now eng fa).status = 500 →
        (handleWhipOffer key req now eng fa).released = [])
    ∧ ((handleWhipOffer key req now eng fa).released ≠ [] →
        (handleWhipOffer key req now eng fa).status = 400
          ∧ (handleWhipOffer key req now eng fa).released = [Res.transport]
          ∧ (handleWhipOffer key req now eng fa).created = [Res.transport])
    ∧ (∀ s, (handleWhipOffer key req now eng fa).registered = some s →
        (handleWhipOffer key req now eng fa).created = sessionRes s
          ∧ ((handleWhipOffer key req now eng fa).status = 201
              ∨ (handleWhipOffer key req now eng fa).status = 500)) := by
  have hafter : ∀ (cid : Option Int) (body : String) (fa2 : String → Option RLEntry)
      (compared : Bool),
      ((offerAfterAuth cid body eng fa2 compared).status = 500 →
          (offerAfterAuth cid body eng fa2 compared).released = [])
      ∧ ((offerAfterAuth cid body eng fa2 compared).released ≠ [] →
          (offerAfterAuth cid body eng fa2 compared).status = 400
            ∧ (offerAfterAuth cid body eng fa2 compared).released = [Res.transport]
            ∧ (offerAfterAuth cid body eng fa2 compared).created = [Res.transport])
      ∧ (∀ s, (offerAfterAuth cid body eng fa2 compared).registered = some s →
          (offerAfterAuth cid body eng fa2 compared).created = sessionRes s
            ∧ ((offerAfterAuth cid body eng fa2 compared).status = 201
                ∨ (offerAfterAuth cid body eng fa2 compared).status = 500)) := by
    intro cid body fa2 compared
    cases cid with
    | none => exact ⟨fun h => rfl, fun h => absurd rfl h, fun s hs => by cases hs⟩
    | some c =>
      by_cases hb : strStartsWith body "v=0"
      · have hsame : offerAfterAuth (some c) body eng fa2 compared
            = offerTryBlock eng fa2 compared := by
          simp [offerAfterAuth, hb]
        rw [hsame]
        exact offerTryCore_failure_invariants eng
      · simp only [Bool.not_eq_true] at hb
        rw [offerAfterAuth_badBody _ _ _ _ _ hb]
        exact ⟨fun h => rfl, fun h => absurd rfl h, fun s hs => by cases hs⟩
  unfold handleWhipOffer
  by_cases hkey : key = ""
  · rw [if_pos hkey]
    exact hafter _ _ _ _
  · rw [if_neg hkey]
    by_cases hrl : checkRateLimit now fa (clientIpOf req.xForwardedFor) = true
    · simp only [hrl, Bool.not_true, Bool.false_eq_true, if_false]
      by_cases hse : safeEqual (strBytes (providedKeyOf req.authHeader)) (strBytes key) = true
      · simp only [hse, Bool.not_true, Bool.false_eq_true, if_false]
        exact hafter _ _ _ _
      · simp only [Bool.not_eq_true] at hse
        simp only [hse, Bool.not_false, if_true]
        simp
    · simp only [Bool.not_eq_true] at hrl
      simp only [hrl, Bool.not_false, if_true]
      simp

/-! ## Stats conversion (whip-server.ts, getChannelStats)

Raw sample values are modelled as exact rationals. -/

inductive MediaKind
  | audio
  | video
deriving DecidableEq, Repr

/-- Math.round of JavaScript: the floor of x + 1/2 (halves round up). -/
def jsRound (q : ℚ) : ℤ := ⌊q + 1/2⌋

/-- One raw statistics sample as the producer reports it; absent fields are
none. -/
structure RawStat where
  mimeType : Option String
  bitrate : Option ℚ
  packetsLost : Option ℚ
  fractionLost : Option ℚ
  jitter : Option ℚ
  score : Option ℚ
  roundTripTime : Option ℚ
  nackCount : Option ℚ
  pliCount : Option ℚ
  firCount : Option ℚ
deriving DecidableEq, Repr

/-- One client-facing track snapshot: bitrate in kilobits, fraction lost as
a percentage with one decimal, jitter and round-trip time in milliseconds,
the video-only counters present only on video tracks. -/
structure TrackStats where
  kind : MediaKind
  mimeType : String
  bitrate : ℤ
  packetsLost : ℚ
  fractionLost : ℚ
  jitter : ℤ
  score : ℚ
  roundTripTime : ℤ
  nackCount : ℚ
  pliCount : Option ℚ
  firCount : Option ℚ
deriving DecidableEq, Repr

/-- The per-sample reshaping getChannelStats performs for each producer
with a sample: each conversion and default mirrors one field of the pushed
track record. -/
def convertTrack (kind : MediaKind) (s : RawStat) : TrackStats :=
  { kind := kind
    mimeType := s.mimeType.getD (if kind = MediaKind.audio then "audio/opus" else "video/h264")
    bitrate := jsRound (s.bitrate.getD 0 / 1000)
    packetsLost := s.packetsLost.getD 0
    fractionLost :=
      match s.fractionLost with
      | some f => (jsRound (f / 255 * 100 * 10) : ℚ) / 10
      | none => 0
    jitter :=
      match s.jitter with
      | some j => jsRound (j * 1000)
      | none => 0
    score := s.score.getD 0
    roundTripTime :=
      match s.roundTripTime with
      | some r => jsRound (r * 1000)
      | none => 0
    nackCount := s.nackCount.getD 0
    pliCount := if kind = MediaKind.video then some (s.pliCount.getD 0) else none
    firCount := if kind = MediaKind.video then some (s.firCount.getD 0) else none }

/-- C8: bitrate is the sample bitrate over 1000, rounded; fraction lost f
on the 0-255 scale becomes round(f / 255 * 100 * 10) / 10 percent, so 51
maps to 20.0; jitter j in seconds becomes round(j * 1000) ms, so 0.012
maps to 12; round-trip time in seconds becomes round(rtt * 1000) ms;
missing numeric fields default to 0; the picture-loss and full-intra
counters are present exactly on video tracks. -/
theorem getChannelStats_conversion (kind : MediaKind) (s : RawStat) :
    (convertTrack kind s).bitrate = jsRound (s.bitrate.getD 0 / 1000)
    ∧ (s.bitrate = none → (convertTrack kind s).bitrate = 0)
    ∧ (∀ f, s.fractionLost = some f →
        (convertTrack kind s).fractionLost = (jsRound (f / 255 * 100 * 10) : ℚ) / 10)
    ∧ (s.fractionLost = none → (convertTrack kind s).fractionLost = 0)
    ∧ (∀ j, s.jitter = some j → (convertTrack kind s).jitter = jsRound (j * 1000))
    ∧ (s.jitter = none → (convertTrack kind s).jitter = 0)
    ∧ (∀ r, s.roundTripTime = some r →
        (convertTrack kind s).roundTripTime = jsRound (r * 1000))
    ∧ (s.roundTripTime = none → (convertTrack kind s).roundTripTime = 0)
    ∧ ((convertTrack kind s).pliCount
        = if kind = MediaKind.video then some (s.pliCount.getD 0) else none)
    ∧ ((convertTrack kind s).firCount
        = if kind = MediaKind.video then some (s.firCount.getD 0) else none)
    ∧ (convertTrack kind { s with fractionLost := some 51 }).fractionLost = 20
    ∧ (convertTrack kind { s with jitter := some (12 / 1000) }).jitter = 12 := by
  refine ⟨rfl, ?_, ?_, ?_, ?_, ?_, ?_, ?_, rfl, rfl, ?_, ?_⟩
  · intro h
    simp only [convertTrack, h, Option.getD_none]
    norm_num [jsRound]
  · intro f hf; simp [convertTrack, hf]
  · intro h; simp [convertTrack, h]
  · intro j hj; simp [convertTrack, hj]
  · intro h; simp [convertTrack, h]
  · intro r hr; simp [convertTrack, hr]
  · intro h; simp [convertTrack, h]
  · show (jsRound (51 / 255 * 100 * 10) : ℚ) / 10 = 20
    norm_num [jsRound]
  · show jsRound (12 / 1000 * 1000) = 12
    norm_num [jsRound]

end Whip
